import Mathlib

/-!
Shallow embedding of the routing core of the Shinkei/spa-web-patterns
single-page application (source: src/services/Router.js), together with
models of the collaborators the Router drives: the browser history stack,
the single display slot in the main element, the dynamic-import module
cache, and the Proxy-based state store.

String operations mirror the JavaScript string primitives used by the
source (String.prototype.startsWith, lastIndexOf, substring) on the
character sequence of the path.
-/

namespace SpaWeb

/-- JS. `s.startsWith(pre)`: the character sequence of `pre` is a prefix of
the character sequence of `s`. -/
def jsStartsWith (s pre : String) : Bool :=
  pre.data.isPrefixOf s.data

/-- Index of the last occurrence of `c` in a character list, if any. -/
def lastIndexOfAux (c : Char) : List Char → Option Nat
  | [] => none
  | x :: xs =>
    match lastIndexOfAux c xs with
    | some j => some (j + 1)
    | none => if x = c then some 0 else none

/-- JS. `s.lastIndexOf(c)`: index of the last occurrence of `c` in `s`,
or `-1` when `c` does not occur. -/
def lastIndexOf (s : String) (c : Char) : Int :=
  match lastIndexOfAux c s.data with
  | some i => Int.ofNat i
  | none => -1

/-- JS. `s.substring(i)`: the suffix of `s` from index `i` to the end,
with `i` clamped below by `0` and above by the length. -/
def jsSubstringFrom (s : String) (i : Int) : String :=
  String.mk (s.data.drop i.toNat)

/-- The three views of the application: menu-page (pre-loaded eagerly),
order-page and details-page (lazily imported by Router.go). -/
inductive ViewName where
  | menu
  | order
  | details
deriving DecidableEq

/-- A page element created by `document.createElement` in Router.go; the
details page additionally carries `dataset.productId`. -/
structure PageElement where
  tag : String
  productId : Option String
deriving DecidableEq

/-- Observable effects of Router.go, in the order the source performs
them. -/
inductive Ev where
  | pushHistory (route : String)
  | loadModule (v : ViewName)
  | metadata (title color : String)
  | swapPage
  | scrollReset
deriving DecidableEq

/-- Errors that can propagate from the Router code: a rejected dynamic
module import, or a TypeError from dereferencing a null history state. -/
inductive JsErr where
  | typeError (msg : String)
  | loadError (v : ViewName)
deriving DecidableEq

/-- The browser-visible state Router.go touches: the history stack, the
single display slot inside the main element, document title, theme-color
meta tag, horizontal scroll offset, and the set of modules the dynamic
module-import cache already holds. -/
structure World where
  historyStack : List String
  slot : Option PageElement
  title : String
  themeColor : String
  scrollX : Int
  loaded : List ViewName
deriving DecidableEq

/-- Result of one call to Router.go: the trace of observable effects, the
world at the asynchronous function's settlement, and the rejection
surfaced to the caller, if any. -/
structure GoResult where
  events : List Ev
  world : World
  error : Option JsErr
deriving DecidableEq

/-- Router.setMetadata: sets the document title (suffixed with
" - Coffee Shop") and the theme-color meta content. -/
def setMetadata (title color : String) (w : World) : World :=
  { w with title := title ++ " - Coffee Shop", themeColor := color }

/-- The changePage closure in Router.go: remove the current first child
of main when present, then append the new page element. Either way the
slot ends up holding exactly the new element. -/
def changePage (pageElement : PageElement) (main : Option PageElement) :
    Option PageElement :=
  match main with
  | some _ => some pageElement
  | none => some pageElement

/-- The View Transitions capability: `document.startViewTransition(cb)`
runs the update callback to change the DOM; the visual animation has no
effect on the resulting DOM state. -/
def startViewTransition (callback : Option PageElement → Option PageElement)
    (slot : Option PageElement) : Option PageElement :=
  callback slot

/-- A dynamic `import(...)` as awaited by Router.go: served from the
module cache when already loaded, otherwise the underlying load is
performed; `ok` says whether the load of a module succeeds. Returns the
world, the load events, and the rejection if the load failed. -/
def importModule (v : ViewName) (ok : ViewName → Bool) (w : World) :
    World × List Ev × Option JsErr :=
  if v ∈ w.loaded then (w, [], none)
  else if ok v then ({ w with loaded := v :: w.loaded }, [Ev.loadModule v], none)
  else (w, [Ev.loadModule v], some (JsErr.loadError v))

/-- Tail of Router.go after the switch: when a page element was created,
swap it into the display slot (inside the transition callback when the
capability is present), then reset the horizontal scroll offset. -/
def finishGo (evs : List Ev) (hasViewTransition : Bool)
    (pageElement : Option PageElement) (w : World) : GoResult :=
  match pageElement with
  | some pe =>
    let newSlot :=
      if hasViewTransition then startViewTransition (fun s => changePage pe s) w.slot
      else changePage pe w.slot
    { events := evs ++ [Ev.swapPage, Ev.scrollReset],
      world := { w with slot := newSlot, scrollX := 0 },
      error := none }
  | none =>
    { events := evs ++ [Ev.scrollReset],
      world := { w with scrollX := 0 },
      error := none }

/-- Router.go. Pushes a history entry when `addToHistory`, dispatches on
the route exactly as the source switch does, awaits the dynamic import of
the lazily-loaded views (a rejection propagates to the caller and skips
the rest), sets the metadata, swaps the page element, and resets the
horizontal scroll. `hasViewTransition` models the presence of
`document.startViewTransition`; `ok` models the outcome of each module
load. -/
def go (route : String) (addToHistory : Bool) (hasViewTransition : Bool)
    (ok : ViewName → Bool) (w0 : World) : GoResult :=
  let pushed :=
    if addToHistory then
      ({ w0 with historyStack := route :: w0.historyStack }, [Ev.pushHistory route])
    else (w0, ([] : List Ev))
  let w1 := pushed.1
  let evs1 := pushed.2
  if route = "/" then
    let pageElement : PageElement := { tag := "menu-page", productId := none }
    let w2 := setMetadata "Menu" "#fff" w1
    finishGo (evs1 ++ [Ev.metadata "Menu" "#fff"]) hasViewTransition (some pageElement) w2
  else if route = "/order" then
    match importModule ViewName.order ok w1 with
    | (w2, levs, none) =>
      let pageElement : PageElement := { tag := "order-page", productId := none }
      let w3 := setMetadata "Your Order" "#f60" w2
      finishGo (evs1 ++ levs ++ [Ev.metadata "Your Order" "#f60"]) hasViewTransition
        (some pageElement) w3
    | (w2, levs, some e) =>
      { events := evs1 ++ levs, world := w2, error := some e }
  else if jsStartsWith route "/product-" then
    let w2 := setMetadata "Product Details" "#f0f" w1
    match importModule ViewName.details ok w2 with
    | (w3, levs, none) =>
      let pageElement : PageElement :=
        { tag := "details-page",
          productId := some (jsSubstringFrom route (lastIndexOf route '-' + 1)) }
      finishGo (evs1 ++ [Ev.metadata "Product Details" "#f0f"] ++ levs) hasViewTransition
        (some pageElement) w3
    | (w3, levs, some e) =>
      { events := evs1 ++ [Ev.metadata "Product Details" "#f0f"] ++ levs,
        world := w3, error := some e }
  else
    finishGo evs1 hasViewTransition none w1

/-- The pure route-resolution function embodied in the switch of
Router.go: path to view name plus optional parameter (the substring after
the last dash for product routes). -/
def resolve (route : String) : Option (ViewName × Option String) :=
  if route = "/" then some (ViewName.menu, none)
  else if route = "/order" then some (ViewName.order, none)
  else if jsStartsWith route "/product-" then
    some (ViewName.details, some (jsSubstringFrom route (lastIndexOf route '-' + 1)))
  else none

/-- The page element Router.go creates for a resolved view. -/
def elementFor : ViewName × Option String → PageElement
  | (ViewName.menu, _) => { tag := "menu-page", productId := none }
  | (ViewName.order, _) => { tag := "order-page", productId := none }
  | (ViewName.details, p) => { tag := "details-page", productId := p }

/-- The history state recorded by `history.pushState({ route }, ...)`. -/
structure NavState where
  route : String
deriving DecidableEq

/-- The popstate listener installed by Router.init: it reads
`event.state.route` without a null check and calls
`Router.go(event.state.route, false)`. A null `event.state` (as on the
initial history entry, created without a state object) makes the member
access throw a TypeError before any navigation happens. -/
def popstateHandler (eventState : Option NavState) (hasViewTransition : Bool)
    (ok : ViewName → Bool) (w : World) : GoResult :=
  match eventState with
  | none =>
    { events := [], world := w,
      error := some (JsErr.typeError "Cannot read properties of null (reading route)") }
  | some st => go st.route false hasViewTransition ok w

/-- World at app startup: empty history, nothing mounted, and the menu
module already in the import cache (MenuPage is imported eagerly). -/
def initialWorld : World :=
  { historyStack := [], slot := none, title := "", themeColor := "",
    scrollX := 0, loaded := [ViewName.menu] }

/-- Modelled from the spec: the state fields of `services/Store.js` (the
Proxy-based store), whose code is referenced by src/README.md and the
CartItem component but is not under src/. -/
inductive Field where
  | menu
  | cart
deriving DecidableEq

/-- Modelled from the spec: the two change-notification kinds the store
broadcasts (appmenuchange / appcartchange). -/
inductive NotifKind where
  | menuChanged
  | cartChanged
deriving DecidableEq

/-- Modelled from the spec: which notification kind a write to a field
emits. -/
def kindOf : Field → NotifKind
  | Field.menu => NotifKind.menuChanged
  | Field.cart => NotifKind.cartChanged

/-- Modelled from the spec: the StateStore of section 4.1 — current value
of each field, and the handlers registered per notification kind, kept in
registration order (handlers are identified by a numeric id). -/
structure StateStore (V : Type) where
  value : Field → V
  subs : NotifKind → List Nat

/-- Modelled from the spec: `read(field)` returns the current value and
never fails. -/
def StateStore.read {V : Type} (s : StateStore V) (f : Field) : V :=
  s.value f

/-- Modelled from the spec: `subscribe(kind, handler)` appends the handler
for that kind, preserving registration order. -/
def StateStore.subscribe {V : Type} (s : StateStore V) (k : NotifKind) (h : Nat) :
    StateStore V :=
  { s with subs := fun k2 => if k2 = k then s.subs k2 ++ [h] else s.subs k2 }

/-- Modelled from the spec: `write(field, value)` replaces the field value
in full, then synchronously invokes every handler registered for the
matching notification kind, in registration order, before returning. The
second component is the invocation trace: each invoked handler paired with
the value it observes when it reads the field during notification. -/
def StateStore.write {V : Type} (s : StateStore V) (f : Field) (v : V) :
    StateStore V × List (Nat × V) :=
  let s2 : StateStore V := { s with value := fun f2 => if f2 = f then v else s.value f2 }
  (s2, (s2.subs (kindOf f)).map (fun h => (h, s2.read f)))

/-- Modelled from the spec: load state of one view module in the
ModuleRegistry of section 4.2 — not yet requested, load in flight with a
number of pending callers, or load complete. The registry itself is the
platform's dynamic-import module map, not code under src/. -/
inductive RegState where
  | notLoaded
  | loading (pending : Nat)
  | loaded
deriving DecidableEq

/-- Modelled from the spec: the ModuleRegistry — per-view load state, the
count of underlying (slow) load invocations performed, and the count of
ensureLoaded calls that have resolved. -/
structure Registry where
  st : ViewName → RegState
  loads : ViewName → Nat
  resolvedCalls : ViewName → Nat

/-- Modelled from the spec: the events the registry reacts to — a call to
`ensureLoaded(v)`, or the completion of the in-flight load of `v`. -/
inductive RegOp where
  | call (v : ViewName)
  | complete (v : ViewName)

/-- Modelled from the spec: one registry transition. An ensureLoaded call
on a not-yet-requested view starts the single underlying load; a call
while the load is in flight coalesces onto it; a call on a loaded view
resolves immediately from the cache. Completion of the load resolves every
pending caller at once. -/
def regStep (r : Registry) : RegOp → Registry
  | RegOp.call v =>
    match r.st v with
    | RegState.notLoaded =>
      { r with st := fun v2 => if v2 = v then RegState.loading 1 else r.st v2,
               loads := fun v2 => if v2 = v then r.loads v2 + 1 else r.loads v2 }
    | RegState.loading n =>
      { r with st := fun v2 => if v2 = v then RegState.loading (n + 1) else r.st v2 }
    | RegState.loaded =>
      { r with resolvedCalls := fun v2 => if v2 = v then r.resolvedCalls v2 + 1
                                          else r.resolvedCalls v2 }
  | RegOp.complete v =>
    match r.st v with
    | RegState.loading n =>
      { r with st := fun v2 => if v2 = v then RegState.loaded else r.st v2,
               resolvedCalls := fun v2 => if v2 = v then r.resolvedCalls v2 + n
                                          else r.resolvedCalls v2 }
    | _ => r

/-- Modelled from the spec: running the registry over a sequence of
events. -/
def regRun (r : Registry) : List RegOp → Registry
  | [] => r
  | op :: ops => regRun (regStep r op) ops

/-- Modelled from the spec: the registry at process start — the default
menu view is pre-loaded eagerly (never taking the async path), everything
else untouched. -/
def regInit : Registry :=
  { st := fun v => if v = ViewName.menu then RegState.loaded else RegState.notLoaded,
    loads := fun _ => 0,
    resolvedCalls := fun _ => 0 }

/-- Whether an observable effect is a module load. -/
def isLoadEv : Ev → Bool
  | Ev.loadModule _ => true
  | _ => false

/-- Whether an observable effect is a navigation-chrome update (title and
theme-color). -/
def isChromeEv : Ev → Bool
  | Ev.metadata _ _ => true
  | _ => false

/-- In a trace, a module load occurs and occurs strictly before the first
navigation-chrome update. -/
def loadBeforeChrome (evs : List Ev) : Bool :=
  match evs.findIdx? isLoadEv, evs.findIdx? isChromeEv with
  | some i, some j => decide (i < j)
  | _, _ => false

/-- Invariant of the ModuleRegistry: the underlying load of every view
runs at most once, a view never requested has no load, and a resolved
ensureLoaded call implies the load has completed. -/
def RegInv (r : Registry) : Prop :=
  ∀ v, r.loads v ≤ 1 ∧
    (r.st v = RegState.notLoaded → r.loads v = 0) ∧
    (0 < r.resolvedCalls v → r.st v = RegState.loaded)

end SpaWeb

namespace SpaWeb

theorem changePage_eq (pe : PageElement) (s : Option PageElement) :
    changePage pe s = some pe := by
  cases s <;> rfl

theorem finishGo_transition_irrelevant (evs : List Ev) (pe? : Option PageElement)
    (w : World) : finishGo evs true pe? w = finishGo evs false pe? w := by
  cases pe? <;> rfl

theorem product_ne_root {r : String} (h : jsStartsWith r "/product-" = true) :
    r ≠ "/" := by
  intro he
  subst he
  exact absurd h (by decide)

theorem product_ne_order {r : String} (h : jsStartsWith r "/product-" = true) :
    r ≠ "/order" := by
  intro he
  subst he
  exact absurd h (by decide)

end SpaWeb

/-- Sanity example: the product route parameter is everything after the
last dash. -/
example : SpaWeb.resolve "/product-42" =
    some (SpaWeb.ViewName.details, some "42") := by decide

example : SpaWeb.resolve "/product-abc" =
    some (SpaWeb.ViewName.details, some "abc") := by decide

example : SpaWeb.resolve "/unknown" = none := by decide

namespace SpaWeb

/-- Claim C1: route resolution is a pure function of the path: "/" gives
the menu view, "/order" the order view, any path beginning with
"/product-" the details view with parameter equal to the substring after
the last dash (so "/product-42" gives "42" and "/product-abc" gives
"abc"), and every other path gives no view; and the element Router.go
mounts is exactly the one determined by this resolution (repeated
resolution of the same path trivially yields the same pair, resolve being
a function). -/
theorem claim_C1_route_resolution :
    resolve "/" = some (ViewName.menu, none) ∧
    resolve "/order" = some (ViewName.order, none) ∧
    (∀ r : String, jsStartsWith r "/product-" = true →
      resolve r = some (ViewName.details,
        some (jsSubstringFrom r (lastIndexOf r '-' + 1)))) ∧
    resolve "/product-42" = some (ViewName.details, some "42") ∧
    resolve "/product-abc" = some (ViewName.details, some "abc") ∧
    (∀ r : String, r ≠ "/" → r ≠ "/order" → jsStartsWith r "/product-" = false →
      resolve r = none) ∧
    (∀ (r : String) (hv : Bool) (w : World),
      (go r true hv (fun _ => true) w).world.slot =
        match resolve r with
        | some vp => some (elementFor vp)
        | none => w.slot) := by
  refine ⟨by decide, by decide, ?_, by decide, by decide, ?_, ?_⟩
  · intro r h
    have h1 := product_ne_root h
    have h2 := product_ne_order h
    simp [resolve, h1, h2, h]
  · intro r h1 h2 h3
    simp [resolve, h1, h2, h3]
  · intro r hv w
    by_cases h1 : r = "/"
    · subst h1
      cases hv <;>
        simp [go, resolve, finishGo, elementFor, setMetadata, changePage_eq,
          startViewTransition]
    · by_cases h2 : r = "/order"
      · subst h2
        by_cases hm : ViewName.order ∈ w.loaded <;> cases hv <;>
          simp [go, resolve, importModule, hm, finishGo, elementFor, setMetadata,
            changePage_eq, startViewTransition]
      · by_cases h3 : jsStartsWith r "/product-" = true
        · by_cases hm : ViewName.details ∈ w.loaded <;> cases hv <;>
            simp [go, resolve, h1, h2, h3, importModule, hm, finishGo, elementFor,
              setMetadata, changePage_eq, startViewTransition]
        · simp only [Bool.not_eq_true] at h3
          cases hv <;>
            simp [go, resolve, h1, h2, h3, finishGo]

/-- Claim C1 witness: the universally quantified conjuncts instantiated
at concrete paths. -/
theorem claim_C1_witness :
    resolve "/product-9-z" = some (ViewName.details,
      some (jsSubstringFrom "/product-9-z" (lastIndexOf "/product-9-z" '-' + 1))) ∧
    resolve "/unknown" = none ∧
    (go "/order" true false (fun _ => true) initialWorld).world.slot =
      (match resolve "/order" with
        | some vp => some (elementFor vp)
        | none => initialWorld.slot) :=
  ⟨claim_C1_route_resolution.2.2.1 "/product-9-z" (by decide),
   claim_C1_route_resolution.2.2.2.2.2.1 "/unknown" (by decide) (by decide) (by decide),
   claim_C1_route_resolution.2.2.2.2.2.2 "/order" false initialWorld⟩

/-- Claim C2: write commits the new value first and only then invokes
every currently-registered handler for the matching notification kind,
exactly once each in registration order, before returning; a handler
reading the field during notification observes the new value, and a read
immediately after the write returns the written value. (Store.js is not
under src/; the store is modelled from the spec.) -/
theorem claim_C2_write_notify :
    ∀ (V : Type) (s : StateStore V) (f : Field) (v : V) (k : NotifKind) (h : Nat),
      (s.write f v).1.read f = v ∧
      (s.write f v).1.subs = s.subs ∧
      (s.write f v).2 = (s.subs (kindOf f)).map (fun h2 => (h2, v)) ∧
      (s.subscribe k h).subs k = s.subs k ++ [h] := by
  intro V s f v k h
  refine ⟨?_, rfl, ?_, ?_⟩
  · simp [StateStore.write, StateStore.read]
  · simp [StateStore.write, StateStore.read]
  · simp [StateStore.subscribe]

end SpaWeb

namespace SpaWeb

theorem go_events_shape (r : String) (a hv : Bool) (ok : ViewName → Bool)
    (w : World) :
    ∃ tail, (go r a hv ok w).events =
        (if a then [Ev.pushHistory r] else []) ++ tail ∧
      ∀ r2, Ev.pushHistory r2 ∉ tail := by
  by_cases h1 : r = "/"
  · subst h1
    refine ⟨[Ev.metadata "Menu" "#fff", Ev.swapPage, Ev.scrollReset], ?_, ?_⟩
    · cases a <;> simp [go, finishGo]
    · intro r2
      simp
  by_cases h2 : r = "/order"
  · subst h2
    by_cases hm : ViewName.order ∈ w.loaded
    · refine ⟨[Ev.metadata "Your Order" "#f60", Ev.swapPage, Ev.scrollReset], ?_, ?_⟩
      · cases a <;> simp [go, h1, importModule, hm, finishGo]
      · intro r2
        simp
    · by_cases hok : ok ViewName.order = true
      · refine ⟨[Ev.loadModule ViewName.order, Ev.metadata "Your Order" "#f60",
          Ev.swapPage, Ev.scrollReset], ?_, ?_⟩
        · cases a <;> simp [go, h1, importModule, hm, hok, finishGo]
        · intro r2
          simp
      · refine ⟨[Ev.loadModule ViewName.order], ?_, ?_⟩
        · cases a <;> simp [go, h1, importModule, hm, hok, finishGo]
        · intro r2
          simp
  by_cases h3 : jsStartsWith r "/product-" = true
  · by_cases hm : ViewName.details ∈ w.loaded
    · refine ⟨[Ev.metadata "Product Details" "#f0f", Ev.swapPage, Ev.scrollReset], ?_, ?_⟩
      · cases a <;> simp [go, h1, h2, h3, importModule, hm, finishGo, setMetadata]
      · intro r2
        simp
    · by_cases hok : ok ViewName.details = true
      · refine ⟨[Ev.metadata "Product Details" "#f0f", Ev.loadModule ViewName.details,
          Ev.swapPage, Ev.scrollReset], ?_, ?_⟩
        · cases a <;> simp [go, h1, h2, h3, importModule, hm, hok, finishGo, setMetadata]
        · intro r2
          simp
      · refine ⟨[Ev.metadata "Product Details" "#f0f", Ev.loadModule ViewName.details],
          ?_, ?_⟩
        · cases a <;> simp [go, h1, h2, h3, importModule, hm, hok, finishGo, setMetadata]
        · intro r2
          simp
  · simp only [Bool.not_eq_true] at h3
    refine ⟨[Ev.scrollReset], ?_, ?_⟩
    · cases a <;> simp [go, h1, h2, h3, finishGo]
    · intro r2
      simp

end SpaWeb

namespace SpaWeb

/-- Claim C3: for every unrecognized path (not "/", not "/order", not
prefixed by "/product-"), navigation is a no-op on the display slot: the
previously mounted element stays mounted, no module load is triggered, no
swap happens, and no error is raised. -/
theorem claim_C3_unroutable_noop :
    ∀ (r : String) (a hv : Bool) (ok : ViewName → Bool) (w : World),
      r ≠ "/" → r ≠ "/order" → jsStartsWith r "/product-" = false →
      (go r a hv ok w).error = none ∧
      (go r a hv ok w).world.slot = w.slot ∧
      (∀ v, Ev.loadModule v ∉ (go r a hv ok w).events) ∧
      Ev.swapPage ∉ (go r a hv ok w).events := by
  intro r a hv ok w h1 h2 h3
  cases a <;> simp [go, h1, h2, h3, finishGo]

/-- Claim C3 witness: navigating to the unrecognized path "/unknown"
from the initial world. -/
theorem claim_C3_witness :
    (go "/unknown" true false (fun _ => true) initialWorld).error = none ∧
    (go "/unknown" true false (fun _ => true) initialWorld).world.slot =
      initialWorld.slot ∧
    (∀ v, Ev.loadModule v ∉ (go "/unknown" true false (fun _ => true) initialWorld).events) ∧
    Ev.swapPage ∉ (go "/unknown" true false (fun _ => true) initialWorld).events :=
  claim_C3_unroutable_noop "/unknown" true false (fun _ => true) initialWorld
    (by decide) (by decide) (by decide)

/-- Claim C4: a history entry for the route is pushed exactly when the
navigation is user/code-initiated (addToHistory true): the push is the
first observable effect, before resolution, loading and mounting, and so
happens for every load outcome, failing ones included; a replay (the
popstate listener) calls go with addToHistory false, and such a call
pushes no history entry at all. -/
theorem claim_C4_history_push :
    (∀ (r : String) (hv : Bool) (ok : ViewName → Bool) (w : World),
      ∃ rest, (go r true hv ok w).events = Ev.pushHistory r :: rest) ∧
    (∀ (r r2 : String) (hv : Bool) (ok : ViewName → Bool) (w : World),
      Ev.pushHistory r2 ∉ (go r false hv ok w).events) ∧
    (∀ (st : NavState) (hv : Bool) (ok : ViewName → Bool) (w : World),
      popstateHandler (some st) hv ok w = go st.route false hv ok w) := by
  refine ⟨?_, ?_, ?_⟩
  · intro r hv ok w
    obtain ⟨tail, he, _⟩ := go_events_shape r true hv ok w
    exact ⟨tail, by simpa using he⟩
  · intro r r2 hv ok w
    obtain ⟨tail, he, hn⟩ := go_events_shape r false hv ok w
    rw [he]
    simpa using hn r2
  · intro st hv ok w
    rfl

/-- Claim C5: when the module load for the navigated-to view fails, the
rejection propagates to the caller of go, no element is mounted, and the
previously mounted element stays in the display slot. -/
theorem claim_C5_load_failure :
    (∀ (hv : Bool) (ok : ViewName → Bool) (w : World),
      ViewName.order ∉ w.loaded → ok ViewName.order = false →
      (go "/order" true hv ok w).error = some (JsErr.loadError ViewName.order) ∧
      (go "/order" true hv ok w).world.slot = w.slot ∧
      Ev.swapPage ∉ (go "/order" true hv ok w).events) ∧
    (∀ (r : String) (hv : Bool) (ok : ViewName → Bool) (w : World),
      jsStartsWith r "/product-" = true →
      ViewName.details ∉ w.loaded → ok ViewName.details = false →
      (go r true hv ok w).error = some (JsErr.loadError ViewName.details) ∧
      (go r true hv ok w).world.slot = w.slot ∧
      Ev.swapPage ∉ (go r true hv ok w).events) := by
  constructor
  · intro hv ok w hm hok
    simp [go, importModule, hm, hok, setMetadata]
  · intro r hv ok w h3 hm hok
    have h1 := product_ne_root h3
    have h2 := product_ne_order h3
    simp [go, h1, h2, h3, importModule, hm, hok, setMetadata]

/-- Claim C5 witness: failing loads for "/order" and "/product-42" from
the initial world leave the slot unchanged and surface the rejection. -/
theorem claim_C5_witness :
    ((go "/order" true false (fun _ => false) initialWorld).error =
        some (JsErr.loadError ViewName.order) ∧
      (go "/order" true false (fun _ => false) initialWorld).world.slot =
        initialWorld.slot ∧
      Ev.swapPage ∉ (go "/order" true false (fun _ => false) initialWorld).events) ∧
    ((go "/product-42" true false (fun _ => false) initialWorld).error =
        some (JsErr.loadError ViewName.details) ∧
      (go "/product-42" true false (fun _ => false) initialWorld).world.slot =
        initialWorld.slot ∧
      Ev.swapPage ∉ (go "/product-42" true false (fun _ => false) initialWorld).events) :=
  ⟨claim_C5_load_failure.1 false (fun _ => false) initialWorld (by decide) (by decide),
   claim_C5_load_failure.2 "/product-42" false (fun _ => false) initialWorld
     (by decide) (by decide) (by decide)⟩

end SpaWeb

namespace SpaWeb

/-- Claim C6 counterexample: navigating to "/product-42" with the details
module not yet cached performs the chrome update (title and theme-color)
strictly before the awaited module load, so the claim that for every view
other than the pre-loaded default the load completes before the chrome
update is false at this input. -/
theorem claim_C6_counterexample :
    (go "/product-42" true false (fun _ => true) initialWorld).events =
      [Ev.pushHistory "/product-42", Ev.metadata "Product Details" "#f0f",
        Ev.loadModule ViewName.details, Ev.swapPage, Ev.scrollReset] ∧
    loadBeforeChrome
      (go "/product-42" true false (fun _ => true) initialWorld).events = false := by
  constructor <;> decide

/-- Claim C6 amended: the chrome values are the static per-view lookup
(menu: "Menu"/"#fff", order: "Your Order"/"#f60", details:
"Product Details"/"#f0f"); for the order view the awaited module load
completes before the chrome update, but for the details view the chrome
update is performed before the awaited module load. -/
theorem claim_C6_chrome_order :
    (∀ (hv : Bool) (w : World),
      (go "/" true hv (fun _ => true) w).events =
        [Ev.pushHistory "/", Ev.metadata "Menu" "#fff",
          Ev.swapPage, Ev.scrollReset]) ∧
    (∀ (hv : Bool) (w : World), ViewName.order ∉ w.loaded →
      (go "/order" true hv (fun _ => true) w).events =
        [Ev.pushHistory "/order", Ev.loadModule ViewName.order,
          Ev.metadata "Your Order" "#f60", Ev.swapPage, Ev.scrollReset] ∧
      loadBeforeChrome (go "/order" true hv (fun _ => true) w).events = true) ∧
    (∀ (r : String) (hv : Bool) (w : World),
      jsStartsWith r "/product-" = true → ViewName.details ∉ w.loaded →
      (go r true hv (fun _ => true) w).events =
        [Ev.pushHistory r, Ev.metadata "Product Details" "#f0f",
          Ev.loadModule ViewName.details, Ev.swapPage, Ev.scrollReset] ∧
      loadBeforeChrome (go r true hv (fun _ => true) w).events = false) := by
  refine ⟨?_, ?_, ?_⟩
  · intro hv w
    simp [go, finishGo]
  · intro hv w hm
    have he : (go "/order" true hv (fun _ => true) w).events =
        [Ev.pushHistory "/order", Ev.loadModule ViewName.order,
          Ev.metadata "Your Order" "#f60", Ev.swapPage, Ev.scrollReset] := by
      simp [go, importModule, hm, finishGo, setMetadata]
    refine ⟨he, ?_⟩
    rw [he]
    rfl
  · intro r hv w h3 hm
    have h1 := product_ne_root h3
    have h2 := product_ne_order h3
    have he : (go r true hv (fun _ => true) w).events =
        [Ev.pushHistory r, Ev.metadata "Product Details" "#f0f",
          Ev.loadModule ViewName.details, Ev.swapPage, Ev.scrollReset] := by
      simp [go, h1, h2, h3, importModule, hm, finishGo, setMetadata]
    refine ⟨he, ?_⟩
    rw [he]
    rfl

/-- Claim C6 witness: the amended chrome/load ordering at concrete
navigations from the initial world. -/
theorem claim_C6_witness :
    ((go "/order" true false (fun _ => true) initialWorld).events =
        [Ev.pushHistory "/order", Ev.loadModule ViewName.order,
          Ev.metadata "Your Order" "#f60", Ev.swapPage, Ev.scrollReset] ∧
      loadBeforeChrome (go "/order" true false (fun _ => true) initialWorld).events
        = true) ∧
    ((go "/product-abc" true false (fun _ => true) initialWorld).events =
        [Ev.pushHistory "/product-abc", Ev.metadata "Product Details" "#f0f",
          Ev.loadModule ViewName.details, Ev.swapPage, Ev.scrollReset] ∧
      loadBeforeChrome
        (go "/product-abc" true false (fun _ => true) initialWorld).events = false) :=
  ⟨claim_C6_chrome_order.2.1 false initialWorld (by decide),
   claim_C6_chrome_order.2.2 "/product-abc" false initialWorld (by decide) (by decide)⟩

end SpaWeb

namespace SpaWeb

theorem regInv_init : RegInv regInit := by
  intro v
  refine ⟨by simp [regInit], by intro _; rfl, by intro h; exact absurd h (by simp [regInit])⟩

theorem regInv_step (r : Registry) (op : RegOp) (h : RegInv r) :
    RegInv (regStep r op) := by
  cases op with
  | call v =>
    intro v2
    obtain ⟨a2, b2, c2⟩ := h v2
    cases hst : r.st v with
    | notLoaded =>
      by_cases hv : v2 = v
      · subst hv
        have h0 : r.loads v2 = 0 := b2 hst
        have h1 : r.resolvedCalls v2 = 0 := by
          by_contra hc
          have hld := c2 (Nat.pos_of_ne_zero hc)
          simp [hst] at hld
        refine ⟨?_, ?_, ?_⟩ <;> simp [regStep, hst, h0, h1]
      · refine ⟨?_, ?_, ?_⟩ <;> simp only [regStep, hst, hv, if_false, ite_false]
        exacts [a2, b2, c2]
    | loading n =>
      by_cases hv : v2 = v
      · subst hv
        have h1 : r.resolvedCalls v2 = 0 := by
          by_contra hc
          have hld := c2 (Nat.pos_of_ne_zero hc)
          simp [hst] at hld
        refine ⟨?_, ?_, ?_⟩ <;> simp [regStep, hst, h1]
        exact a2
      · refine ⟨?_, ?_, ?_⟩ <;> simp only [regStep, hst, hv, if_false, ite_false]
        exacts [a2, b2, c2]
    | loaded =>
      by_cases hv : v2 = v
      · subst hv
        refine ⟨?_, ?_, ?_⟩ <;> simp [regStep, hst]
        exact a2
      · refine ⟨?_, ?_, ?_⟩ <;> simp only [regStep, hst, hv, if_false, ite_false]
        exacts [a2, b2, c2]
  | complete v =>
    intro v2
    obtain ⟨a2, b2, c2⟩ := h v2
    cases hst : r.st v with
    | notLoaded =>
      refine ⟨?_, ?_, ?_⟩ <;> simp only [regStep, hst]
      exacts [a2, b2, c2]
    | loading n =>
      by_cases hv : v2 = v
      · subst hv
        refine ⟨?_, ?_, ?_⟩ <;> simp [regStep, hst]
        exact a2
      · refine ⟨?_, ?_, ?_⟩ <;> simp only [regStep, hst, hv, if_false, ite_false]
        exacts [a2, b2, c2]
    | loaded =>
      refine ⟨?_, ?_, ?_⟩ <;> simp only [regStep, hst]
      exacts [a2, b2, c2]

theorem regInv_run (ops : List RegOp) (r : Registry) (h : RegInv r) :
    RegInv (regRun r ops) := by
  induction ops generalizing r with
  | nil => exact h
  | cons op ops ih => exact ih (regStep r op) (regInv_step r op h)

end SpaWeb

namespace SpaWeb

/-- Claim C7: the slow underlying module load of every view runs at most
once per process; a resolved ensureLoaded call implies the single load
has completed (no call resolves before it); two coalesced calls observe
one load; and at the Router level a second navigation to "/order"
triggers zero additional module loads. (The dynamic-import cache is
platform machinery not under src/; it is modelled from the spec.) -/
theorem claim_C7_at_most_once_load :
    (∀ (ops : List RegOp) (v : ViewName), (regRun regInit ops).loads v ≤ 1) ∧
    (∀ (ops : List RegOp) (v : ViewName),
      0 < (regRun regInit ops).resolvedCalls v →
      (regRun regInit ops).st v = RegState.loaded) ∧
    (regRun regInit [RegOp.call ViewName.order, RegOp.call ViewName.order]).loads
      ViewName.order = 1 ∧
    Ev.loadModule ViewName.order ∈
      (go "/order" true false (fun _ => true) initialWorld).events ∧
    (∀ v, Ev.loadModule v ∉
      (go "/order" true false (fun _ => true)
        (go "/order" true false (fun _ => true) initialWorld).world).events) := by
  refine ⟨?_, ?_, by decide, by decide, ?_⟩
  · intro ops v
    exact (regInv_run ops regInit regInv_init v).1
  · intro ops v
    exact (regInv_run ops regInit regInv_init v).2.2
  · intro v
    cases v <;> decide

/-- Claim C7 witness: after one ensureLoaded call for the order view and
the completion of its load, the call has resolved and the view is
loaded. -/
theorem claim_C7_witness :
    0 < (regRun regInit [RegOp.call ViewName.order,
        RegOp.complete ViewName.order]).resolvedCalls ViewName.order ∧
    (regRun regInit [RegOp.call ViewName.order,
        RegOp.complete ViewName.order]).st ViewName.order = RegState.loaded :=
  ⟨by decide,
   claim_C7_at_most_once_load.2.1
     [RegOp.call ViewName.order, RegOp.complete ViewName.order] ViewName.order
     (by decide)⟩

/-- Claim C8: the result of a navigation is independent of whether the
animated-transition capability is present — running the swap inside the
transition callback and running it immediately produce the same trace,
the same world (display slot included) and the same outcome. -/
theorem claim_C8_transition_independent :
    ∀ (r : String) (a : Bool) (ok : ViewName → Bool) (w : World),
      go r a true ok w = go r a false ok w := by
  intro r a ok w
  simp only [go, finishGo_transition_irrelevant]

/-- Claim C9: whenever a go call completes without a rejection (every
successful swap and every unroutable no-op), the horizontal scroll offset
of the window is reset to zero. -/
theorem claim_C9_scroll_reset :
    ∀ (r : String) (a hv : Bool) (ok : ViewName → Bool) (w : World),
      (go r a hv ok w).error = none → (go r a hv ok w).world.scrollX = 0 := by
  intro r a hv ok w herr
  by_cases h1 : r = "/"
  · subst h1
    cases a <;> simp [go, finishGo]
  by_cases h2 : r = "/order"
  · subst h2
    by_cases hm : ViewName.order ∈ w.loaded
    · cases a <;> simp [go, h1, importModule, hm, finishGo, setMetadata]
    · by_cases hok : ok ViewName.order = true
      · cases a <;> simp [go, h1, importModule, hm, hok, finishGo, setMetadata]
      · exfalso
        cases a <;> simp [go, h1, importModule, hm, hok, setMetadata] at herr
  by_cases h3 : jsStartsWith r "/product-" = true
  · by_cases hm : ViewName.details ∈ w.loaded
    · cases a <;> simp [go, h1, h2, h3, importModule, hm, finishGo, setMetadata]
    · by_cases hok : ok ViewName.details = true
      · cases a <;> simp [go, h1, h2, h3, importModule, hm, hok, finishGo, setMetadata]
      · exfalso
        cases a <;> simp [go, h1, h2, h3, importModule, hm, hok, setMetadata] at herr
  · simp only [Bool.not_eq_true] at h3
    cases a <;> simp [go, h1, h2, h3, finishGo]

/-- Claim C9 witness: a successful navigation and an unroutable one, both
ending with a zero horizontal scroll offset. -/
theorem claim_C9_witness :
    ((go "/order" true false (fun _ => true)
        { initialWorld with scrollX := 7 }).error = none ∧
      (go "/order" true false (fun _ => true)
        { initialWorld with scrollX := 7 }).world.scrollX = 0) ∧
    ((go "/unknown" true false (fun _ => true)
        { initialWorld with scrollX := 7 }).error = none ∧
      (go "/unknown" true false (fun _ => true)
        { initialWorld with scrollX := 7 }).world.scrollX = 0) :=
  ⟨⟨by decide,
    claim_C9_scroll_reset "/order" true false (fun _ => true)
      { initialWorld with scrollX := 7 } (by decide)⟩,
   ⟨by decide,
    claim_C9_scroll_reset "/unknown" true false (fun _ => true)
      { initialWorld with scrollX := 7 } (by decide)⟩⟩

/-- Claim C10: the popstate listener dereferences the recorded state
unconditionally — on a history signal whose entry carries no state object
(such as the initial entry) it throws a TypeError, navigating nowhere:
no effects, no world change. -/
theorem claim_C10_null_state_replay :
    ∀ (hv : Bool) (ok : ViewName → Bool) (w : World),
      (popstateHandler none hv ok w).error =
        some (JsErr.typeError "Cannot read properties of null (reading route)") ∧
      (popstateHandler none hv ok w).events = [] ∧
      (popstateHandler none hv ok w).world = w := by
  intro hv ok w
  exact ⟨rfl, rfl, rfl⟩

end SpaWeb
